import Mathlib

/-!
# Verification of the JagSat flight computer core (jsfc.cpp / FlightData.h)

A shallow embedding of the lifecycle state machine, boot sequence, health
check and hardware-status bitfield of the EnduranceFlightComputer
repository, with theorems settling the specification's claims.

External collaborators (sensor reads, `check_iridium_ready`, `millis`) are
modelled as per-tick environment inputs; side effects (debug lines written
to `Serial`, probe invocations, EEPROM traffic) are recorded explicitly in
the step output.
-/

/-- The `system_state` enum consumed by `flight_loop` (jsfc.cpp:118-167):
the four lifecycle states of the flight computer. -/
inductive system_state where
  | STARTUP
  | POLL_WAIT_IRIDIUM
  | TX_RX
  | LOW_POWER_SLEEP
deriving DecidableEq, Repr

open system_state

/-- The mutable globals of jsfc.cpp:98-101 plus the iridium-modem
sleep/wake pin driven by `digitalWrite` (jsfc.cpp:122,163). -/
structure FCState where
  fcpu_lifecycle_state : system_state
  iridum_modem_ready : Bool
  sensor_system_ready : Bool
  iridium_modem_startup_time : Int
  modem_sleep_pin : Bool
deriving DecidableEq, Repr

/-- Per-tick inputs from the external collaborators: the result the
`check_iridium_ready()` probe would return this tick, the `millis()`
clock reading, and the textual renderings of the seven sensor reads
printed at jsfc.cpp:131-137. -/
structure LoopEnv where
  check_iridium_ready : Bool
  millis : Int
  bmp280_temp : String
  mpl3115a2_temp : String
  dht22_temp : String
  ds18b20_temp : String
  bme280_q : String
  bmp280_q : String
  mpl3115a2_q : String
deriving Repr

/-- Observable side effects of one `flight_loop` tick: debug lines written
to `Serial`, how many times `check_iridium_ready()` was invoked, and EEPROM
traffic (the body of `flight_loop` contains no EEPROM access, so the
embedding records the counts it performs, which are zero). -/
structure LoopOut where
  lines : List String
  probeCalls : Nat
  eeprom_reads : Nat
  eeprom_writes : Nat
deriving DecidableEq, Repr

/-- One invocation of `flight_loop` (jsfc.cpp:112-187).  The `switch` on
`fcpu_lifecycle_state`, transcribed case by case; the `#ifndef FLIGHT_MODE`
block inside it (jsfc.cpp:114-117) is commented out in the source, so the
function is identical in both build configurations and takes no flag. -/
def flight_loop (env : LoopEnv) (s : FCState) : FCState × LoopOut :=
  match s.fcpu_lifecycle_state with
  | STARTUP =>
      ({ s with
          iridium_modem_startup_time := env.millis,
          modem_sleep_pin := true,
          fcpu_lifecycle_state := POLL_WAIT_IRIDIUM },
       { lines := ["System in Startup..."],
         probeCalls := 0, eeprom_reads := 0, eeprom_writes := 0 })
  | POLL_WAIT_IRIDIUM =>
      -- jsfc.cpp:129-141: sample sensors once, then latch sensor readiness
      let samplingLines : List String :=
        if s.sensor_system_ready then [] else
          ["Sampling...", env.bmp280_temp, env.mpl3115a2_temp,
           env.dht22_temp, env.ds18b20_temp, env.bme280_q,
           env.bmp280_q, env.mpl3115a2_q]
      let sensor' : Bool := if s.sensor_system_ready then s.sensor_system_ready else true
      -- jsfc.cpp:144-149: `!iridum_modem_ready && check_iridium_ready()`:
      -- the short-circuit invokes the probe only when the latch is false
      let probeInvoked : Bool := !s.iridum_modem_ready
      let modemJustReady : Bool := !s.iridum_modem_ready && env.check_iridium_ready
      let modem' : Bool := if modemJustReady then true else s.iridum_modem_ready
      let modemLines : List String :=
        if modemJustReady then ["Iridium Modem Ready!..."] else []
      -- jsfc.cpp:151
      let st' : system_state :=
        if sensor' && modem' then TX_RX else s.fcpu_lifecycle_state
      ({ s with
          sensor_system_ready := sensor',
          iridum_modem_ready := modem',
          fcpu_lifecycle_state := st' },
       { lines := samplingLines ++ modemLines,
         probeCalls := if probeInvoked then 1 else 0,
         eeprom_reads := 0, eeprom_writes := 0 })
  | TX_RX =>
      ({ s with fcpu_lifecycle_state := LOW_POWER_SLEEP },
       { lines := ["Transmission in progress..."],
         probeCalls := 0, eeprom_reads := 0, eeprom_writes := 0 })
  | LOW_POWER_SLEEP =>
      ({ s with
          iridum_modem_ready := false,
          sensor_system_ready := false,
          modem_sleep_pin := false,
          fcpu_lifecycle_state := STARTUP },
       { lines := ["Transitioning to sleep mode..."],
         probeCalls := 0, eeprom_reads := 0, eeprom_writes := 0 })

/-- The initial values of the globals (jsfc.cpp:98-101); the modem sleep
pin is configured as an output at boot and starts low. -/
def initState : FCState :=
  { fcpu_lifecycle_state := STARTUP,
    iridum_modem_ready := false,
    sensor_system_ready := false,
    iridium_modem_startup_time := 0,
    modem_sleep_pin := false }

/-- Iterate `flight_loop` over a list of per-tick environments (the
`while (1) flight_loop();` loop of jsfc.cpp:66-68). -/
def run : List LoopEnv → FCState → FCState
  | [], s => s
  | env :: envs, s => run envs (flight_loop env s).1

/-- The transition table extracted from the `switch` of jsfc.cpp:118-167:
the next lifecycle state as a pure function of the current state, the two
readiness latches and the probe result of the tick. -/
def next_state (st : system_state) (sensor modem probe : Bool) : system_state :=
  match st with
  | STARTUP => POLL_WAIT_IRIDIUM
  | POLL_WAIT_IRIDIUM =>
      let sensor' := if sensor then sensor else true
      let modem' := if !modem && probe then true else modem
      if sensor' && modem' then TX_RX else POLL_WAIT_IRIDIUM
  | TX_RX => LOW_POWER_SLEEP
  | LOW_POWER_SLEEP => STARTUP

/-- Modelled from the spec: `FLIGHT_DATA::set_hardware_bf_bit` is declared
at FlightData.h:18 but its definition (FlightData.cpp) is absent from the
sources.  Per the spec's Hardware Status Registry contract, `set_bit(i, v)`
sets or clears exactly bit `i` of the 8-bit bitfield and leaves all other
bits unchanged. -/
def set_hardware_bf_bit (bit : Nat) (v : Bool) (bf : Nat) : Nat :=
  if v then bf ||| 2 ^ bit else bf &&& (255 ^^^ 2 ^ bit)

/-- `system_health_check` (jsfc.cpp:77-96): stores the result of
`check_iridium_ready()` into bit 0 of `hardware_status_bitfield` and, only
when `FLIGHT_MODE` is not defined, prints the bitfield in binary between
the markers, as one serial line.  Returns the new bitfield and the emitted
debug lines. -/
def system_health_check (flight_mode : Bool) (probe : Bool) (bf : Nat) :
    Nat × List String :=
  let bf' := set_hardware_bf_bit 0 probe bf
  (bf', if flight_mode then []
        else [("<$".append (String.mk (Nat.toDigits 2 bf'))).append ">"])

/-- Result of the crash check at jsfc.cpp:35-43: the byte left at EEPROM
address 0, and how many EEPROM reads and writes the block performed. -/
structure CrashCheckOut where
  eeprom0 : Nat
  eeprom_reads : Nat
  eeprom_writes : Nat
deriving DecidableEq, Repr

/-- The crash-recovery-flag block of `main` (jsfc.cpp:35-43): compiled only
under `FLIGHT_MODE`; reads EEPROM address 0 and, when the byte is not
already `0xFF` (SET), writes `0xFF`; when it is already SET the dirty-restart
branch is an empty TODO. -/
def crash_check (flight_mode : Bool) (eeprom0 : Nat) : CrashCheckOut :=
  if flight_mode then
    if eeprom0 = 0xFF then
      -- TODO crash logic goes here (empty branch in the source)
      { eeprom0 := eeprom0, eeprom_reads := 1, eeprom_writes := 0 }
    else
      { eeprom0 := 0xFF, eeprom_reads := 1, eeprom_writes := 1 }
  else
    { eeprom0 := eeprom0, eeprom_reads := 0, eeprom_writes := 0 }

/-- `fillArray` (jsfc.cpp:192-196): sets every element of the array to
`val`. -/
def fillArray (arr : List Int) (val : Int) : List Int :=
  arr.map fun _ => val

/-- Modelled from the spec: `FLIGHT_DATA::outbound_data` is declared at
FlightData.h:8 but defined in FlightData.cpp, which is absent from the
sources.  An object of static storage duration without an initializer is
zero-initialized, and the spec states the fixed-size byte buffers are
zero-filled at boot: 52 zero bytes. -/
def outbound_data_init : List Nat := List.replicate 52 0

/-- Boot-time inputs of `main` (jsfc.cpp:19-71): the compile-time
`FLIGHT_MODE` flag, the EEPROM byte at address 0, the linker-provided
initial contents of `inbound_data`, the initial bitfield, and the probe
result seen by the health check. -/
structure BootIn where
  flight_mode : Bool
  eeprom0 : Nat
  inbound0 : List Int
  bf0 : Nat
  probe : Bool
deriving Repr

/-- Observable state after the boot portion of `main` completes, before
the `while (1)` loop is entered. -/
structure BootOut where
  eeprom0 : Nat
  eeprom_reads : Nat
  eeprom_writes : Nat
  inbound_data : List Int
  outbound_data : List Nat
  bitfield : Nat
  lines : List String
deriving Repr

/-- The boot portion of `main` (jsfc.cpp:19-62): crash check (flight
configuration only), `fillArray` on `inbound_data`, then
`system_health_check`.  Pin setup, sensor-system init and the ground-mode
LED blinks touch none of the modelled state. -/
def main_boot (env : BootIn) : BootOut :=
  let cc := crash_check env.flight_mode env.eeprom0
  let inbound := fillArray env.inbound0 0
  let hc := system_health_check env.flight_mode env.probe env.bf0
  { eeprom0 := cc.eeprom0,
    eeprom_reads := cc.eeprom_reads,
    eeprom_writes := cc.eeprom_writes,
    inbound_data := inbound,
    outbound_data := outbound_data_init,
    bitfield := hc.1,
    lines := hc.2 }

/-- A concrete tick environment (probe reports not-ready) used to exercise
the model in witnesses. -/
def env0 : LoopEnv :=
  { check_iridium_ready := false, millis := 0,
    bmp280_temp := "21.50", mpl3115a2_temp := "21.40",
    dht22_temp := "21.30", ds18b20_temp := "21.20",
    bme280_q := "1013.25", bmp280_q := "1013.20", mpl3115a2_q := "1013.10" }

/-- A concrete tick environment whose probe reports the modem ready. -/
def env1 : LoopEnv := { env0 with check_iridium_ready := true }

/-- A concrete ground-configuration boot input used in witnesses. -/
def boot0 : BootIn :=
  { flight_mode := false, eeprom0 := 0x2A, inbound0 := [7, 3],
    bf0 := 0, probe := false }

/-- A concrete flight-configuration boot input (crash byte already SET)
used in witnesses. -/
def bootF : BootIn :=
  { flight_mode := true, eeprom0 := 0xFF, inbound0 := [7, 3],
    bf0 := 0, probe := false }

/-- C1: every `flight_loop` invocation computes its next lifecycle state as
the total, deterministic function `next_state` of the current state, the two
readiness flags and the probe result, and the transitions are strictly
cyclic: Startup always goes to AcquireAndSample, TransmitReceive to Sleep,
Sleep to Startup, and AcquireAndSample either stays or goes to
TransmitReceive, never anywhere else. -/
theorem C1_lifecycle_transitions (env : LoopEnv) (s : FCState) :
    (flight_loop env s).1.fcpu_lifecycle_state =
      next_state s.fcpu_lifecycle_state s.sensor_system_ready
        s.iridum_modem_ready env.check_iridium_ready
    ∧ (s.fcpu_lifecycle_state = STARTUP →
        (flight_loop env s).1.fcpu_lifecycle_state = POLL_WAIT_IRIDIUM)
    ∧ (s.fcpu_lifecycle_state = TX_RX →
        (flight_loop env s).1.fcpu_lifecycle_state = LOW_POWER_SLEEP)
    ∧ (s.fcpu_lifecycle_state = LOW_POWER_SLEEP →
        (flight_loop env s).1.fcpu_lifecycle_state = STARTUP)
    ∧ (s.fcpu_lifecycle_state = POLL_WAIT_IRIDIUM →
        (flight_loop env s).1.fcpu_lifecycle_state = POLL_WAIT_IRIDIUM ∨
        (flight_loop env s).1.fcpu_lifecycle_state = TX_RX) := by
  obtain ⟨st, m, sen, t, pin⟩ := s
  cases st <;> cases m <;> cases sen <;>
    cases h : env.check_iridium_ready <;>
      simp [flight_loop, next_state, h]

/-- Witness for C1 at a concrete input: from the initial Startup state one
tick lands in AcquireAndSample. -/
theorem C1_lifecycle_transitions_witness :
    initState.fcpu_lifecycle_state = STARTUP ∧
    (flight_loop env0 initState).1.fcpu_lifecycle_state = POLL_WAIT_IRIDIUM :=
  ⟨rfl, (C1_lifecycle_transitions env0 initState).2.1 rfl⟩

/-- Helper for C2: a single tick can only land in `STARTUP` via the
`LOW_POWER_SLEEP` case, which resets both readiness flags. -/
theorem flight_loop_startup_reset (env : LoopEnv) (s : FCState) :
    (flight_loop env s).1.fcpu_lifecycle_state = STARTUP →
    (flight_loop env s).1.iridum_modem_ready = false ∧
    (flight_loop env s).1.sensor_system_ready = false := by
  obtain ⟨st, m, sen, t, pin⟩ := s
  cases st <;> cases m <;> cases sen <;>
    cases h : env.check_iridium_ready <;>
      simp [flight_loop, h]

/-- Helper for C2: the Startup-implies-flags-false invariant is preserved
by any run of `flight_loop`. -/
theorem run_startup_inv (envs : List LoopEnv) (s : FCState)
    (h : s.fcpu_lifecycle_state = STARTUP →
         s.iridum_modem_ready = false ∧ s.sensor_system_ready = false) :
    (run envs s).fcpu_lifecycle_state = STARTUP →
    (run envs s).iridum_modem_ready = false ∧
    (run envs s).sensor_system_ready = false := by
  induction envs generalizing s with
  | nil => exact h
  | cons e es ih => exact ih (flight_loop e s).1 (flight_loop_startup_reset e s)

/-- C2: on every run from the initial state, whenever the controller is in
Startup both readiness flags are false, and the Sleep tick that transitions
to Startup resets both flags to false. -/
theorem C2_startup_flags_false (envs : List LoopEnv) (env : LoopEnv) (s : FCState) :
    ((run envs initState).fcpu_lifecycle_state = STARTUP →
      (run envs initState).iridum_modem_ready = false ∧
      (run envs initState).sensor_system_ready = false)
    ∧ (s.fcpu_lifecycle_state = LOW_POWER_SLEEP →
        (flight_loop env s).1.fcpu_lifecycle_state = STARTUP ∧
        (flight_loop env s).1.iridum_modem_ready = false ∧
        (flight_loop env s).1.sensor_system_ready = false) := by
  refine ⟨run_startup_inv envs initState (fun _ => ⟨rfl, rfl⟩), fun hs => ?_⟩
  obtain ⟨st, m, sen, t, pin⟩ := s
  simp only at hs
  subst hs
  simp [flight_loop]

/-- Witness for C2 at a concrete input: the empty run is at Startup with
both flags false, and a Sleep-state tick lands in Startup with both flags
cleared. -/
theorem C2_startup_flags_false_witness :
    ((run [] initState).iridum_modem_ready = false ∧
     (run [] initState).sensor_system_ready = false)
    ∧ ((flight_loop env0 { initState with
          fcpu_lifecycle_state := LOW_POWER_SLEEP,
          iridum_modem_ready := true,
          sensor_system_ready := true }).1.fcpu_lifecycle_state = STARTUP ∧
       (flight_loop env0 { initState with
          fcpu_lifecycle_state := LOW_POWER_SLEEP,
          iridum_modem_ready := true,
          sensor_system_ready := true }).1.iridum_modem_ready = false ∧
       (flight_loop env0 { initState with
          fcpu_lifecycle_state := LOW_POWER_SLEEP,
          iridum_modem_ready := true,
          sensor_system_ready := true }).1.sensor_system_ready = false) :=
  ⟨(C2_startup_flags_false [] env0 initState).1 rfl,
   (C2_startup_flags_false [] env0 { initState with
      fcpu_lifecycle_state := LOW_POWER_SLEEP,
      iridum_modem_ready := true,
      sensor_system_ready := true }).2 rfl⟩

/-- Helper for C4: one tick in AcquireAndSample with the modem latch false
and a failing probe stays in AcquireAndSample with the latch still false. -/
theorem flight_loop_poll_stuck (env : LoopEnv) (s : FCState)
    (hst : s.fcpu_lifecycle_state = POLL_WAIT_IRIDIUM)
    (hm : s.iridum_modem_ready = false)
    (hp : env.check_iridium_ready = false) :
    (flight_loop env s).1.fcpu_lifecycle_state = POLL_WAIT_IRIDIUM ∧
    (flight_loop env s).1.iridum_modem_ready = false := by
  obtain ⟨st, m, sen, t, pin⟩ := s
  simp only at hst hm
  subst hst; subst hm
  cases sen <;> simp [flight_loop, hp]

/-- C4: if the probe never returns true, any number of further ticks from
AcquireAndSample (modem latch unset) leaves the controller in
AcquireAndSample — there is no timeout or escape transition. -/
theorem C4_poll_wait_no_escape (s : FCState) (envs : List LoopEnv)
    (hst : s.fcpu_lifecycle_state = POLL_WAIT_IRIDIUM)
    (hm : s.iridum_modem_ready = false)
    (hp : ∀ e ∈ envs, e.check_iridium_ready = false) :
    (run envs s).fcpu_lifecycle_state = POLL_WAIT_IRIDIUM := by
  induction envs generalizing s with
  | nil => exact hst
  | cons e es ih =>
      have h1 := flight_loop_poll_stuck e s hst hm (hp e (List.mem_cons_self e es))
      exact ih (flight_loop e s).1 h1.1 h1.2
        (fun x hx => hp x (List.mem_cons_of_mem e hx))

/-- Witness for C4 at a concrete input: three failing-probe ticks from
AcquireAndSample stay in AcquireAndSample. -/
theorem C4_poll_wait_no_escape_witness :
    (run [env0, env0, env0] { initState with
       fcpu_lifecycle_state := POLL_WAIT_IRIDIUM }).fcpu_lifecycle_state =
      POLL_WAIT_IRIDIUM :=
  C4_poll_wait_no_escape { initState with fcpu_lifecycle_state := POLL_WAIT_IRIDIUM }
    [env0, env0, env0] rfl rfl (by intro e he; fin_cases he <;> rfl)

/-- C5: a tick invokes `check_iridium_ready` exactly once when it is an
AcquireAndSample tick with the modem latch false, and never otherwise — in
particular never again once the latch is true — and the Sleep tick that
completes the cycle resets the latch to false. -/
theorem C5_probe_latched (env : LoopEnv) (s : FCState) :
    ((flight_loop env s).2.probeCalls =
      if s.fcpu_lifecycle_state = POLL_WAIT_IRIDIUM ∧ s.iridum_modem_ready = false
      then 1 else 0)
    ∧ (s.fcpu_lifecycle_state = LOW_POWER_SLEEP →
        (flight_loop env s).1.iridum_modem_ready = false) := by
  obtain ⟨st, m, sen, t, pin⟩ := s
  cases st <;> cases m <;> cases sen <;>
    cases h : env.check_iridium_ready <;>
      simp [flight_loop, h]

/-- Witness for C5 at a concrete input: a Sleep tick clears the modem
latch. -/
theorem C5_probe_latched_witness :
    (flight_loop env0 { initState with
       fcpu_lifecycle_state := LOW_POWER_SLEEP,
       iridum_modem_ready := true }).1.iridum_modem_ready = false :=
  (C5_probe_latched env0 { initState with
     fcpu_lifecycle_state := LOW_POWER_SLEEP,
     iridum_modem_ready := true }).2 rfl

/-- Helper for C3/C9: `set_hardware_bf_bit i v bf` makes bit `i` read `v`
(for an in-range index). -/
theorem set_hardware_bf_bit_testBit_self (i : Nat) (v : Bool) (bf : Nat)
    (hi : i < 8) :
    (set_hardware_bf_bit i v bf).testBit i = v := by
  have h255 : (255 : Nat).testBit i = true := by
    rw [show (255 : Nat) = 2 ^ 8 - 1 by norm_num, Nat.testBit_two_pow_sub_one]
    simp [hi]
  cases v <;>
    simp [set_hardware_bf_bit, Nat.testBit_lor, Nat.testBit_land,
      Nat.testBit_xor, Nat.testBit_two_pow_self, h255]

/-- Helper for C3/C9: `set_hardware_bf_bit i v bf` leaves every bit other
than `i` of an 8-bit value unchanged. -/
theorem set_hardware_bf_bit_testBit_other (i : Nat) (v : Bool) (bf j : Nat)
    (hbf : bf < 256) (hne : j ≠ i) :
    (set_hardware_bf_bit i v bf).testBit j = bf.testBit j := by
  have hpow : (2 ^ i).testBit j = false := Nat.testBit_two_pow_of_ne (Ne.symm hne)
  cases v
  · by_cases hj : j < 8
    · have h255 : (255 : Nat).testBit j = true := by
        rw [show (255 : Nat) = 2 ^ 8 - 1 by norm_num, Nat.testBit_two_pow_sub_one]
        simp [hj]
      simp [set_hardware_bf_bit, Nat.testBit_land, Nat.testBit_xor, h255, hpow]
    · have h256 : (256 : Nat) ≤ 2 ^ j := by
        calc (256 : Nat) = 2 ^ 8 := by norm_num
          _ ≤ 2 ^ j := Nat.pow_le_pow_right (by norm_num) (Nat.le_of_not_lt hj)
      have hhi : bf.testBit j = false :=
        Nat.testBit_eq_false_of_lt (lt_of_lt_of_le hbf h256)
      simp [set_hardware_bf_bit, Nat.testBit_land, hhi]
  · simp [set_hardware_bf_bit, Nat.testBit_lor, hpow]

/-- Helper for C9: setting the same bit to the same value twice equals
setting it once. -/
theorem set_hardware_bf_bit_idem (i : Nat) (v : Bool) (bf : Nat) :
    set_hardware_bf_bit i v (set_hardware_bf_bit i v bf) =
      set_hardware_bf_bit i v bf := by
  apply Nat.eq_of_testBit_eq
  intro k
  cases v <;>
    simp [set_hardware_bf_bit, Nat.testBit_land, Nat.testBit_lor,
      Bool.and_assoc, Bool.or_assoc]

/-- C9: for every in-range index, boolean value and 8-bit prior bitfield,
`set_hardware_bf_bit` makes bit `i` read `v`, leaves every other bit
unchanged, and is idempotent. -/
theorem C9_set_bit_locality (i : Nat) (v : Bool) (bf : Nat)
    (hi : i < 8) (hbf : bf < 256) :
    (set_hardware_bf_bit i v bf).testBit i = v
    ∧ (∀ j, j ≠ i → (set_hardware_bf_bit i v bf).testBit j = bf.testBit j)
    ∧ set_hardware_bf_bit i v (set_hardware_bf_bit i v bf) =
        set_hardware_bf_bit i v bf :=
  ⟨set_hardware_bf_bit_testBit_self i v bf hi,
   fun j hj => set_hardware_bf_bit_testBit_other i v bf j hbf hj,
   set_hardware_bf_bit_idem i v bf⟩

/-- Witness for C9 at a concrete input: setting bit 3 of bitfield 5. -/
theorem C9_set_bit_locality_witness :
    (set_hardware_bf_bit 3 true 5).testBit 3 = true
    ∧ (set_hardware_bf_bit 3 true 5).testBit 0 = (5 : Nat).testBit 0
    ∧ set_hardware_bf_bit 3 true (set_hardware_bf_bit 3 true 5) =
        set_hardware_bf_bit 3 true 5 :=
  ⟨(C9_set_bit_locality 3 true 5 (by decide) (by decide)).1,
   (C9_set_bit_locality 3 true 5 (by decide) (by decide)).2.1 0 (by decide),
   (C9_set_bit_locality 3 true 5 (by decide) (by decide)).2.2⟩

/-- C3: `system_health_check` stores the probe result into bit 0 of the
bitfield via `set_hardware_bf_bit`, changes no other bit, and from an
all-clear bitfield leaves 0 when the modem is unreachable and 1 when it is
reachable. -/
theorem C3_health_check_bit0 (fm probe : Bool) (bf : Nat) (hbf : bf < 256) :
    (system_health_check fm probe bf).1 = set_hardware_bf_bit 0 probe bf
    ∧ ((system_health_check fm probe bf).1).testBit 0 = probe
    ∧ (∀ j, j ≠ 0 → ((system_health_check fm probe bf).1).testBit j = bf.testBit j)
    ∧ (system_health_check fm false 0).1 = 0
    ∧ (system_health_check fm true 0).1 = 1 :=
  ⟨rfl,
   set_hardware_bf_bit_testBit_self 0 probe bf (by decide),
   fun j hj => set_hardware_bf_bit_testBit_other 0 probe bf j hbf hj,
   rfl,
   rfl⟩

/-- Witness for C3 at a concrete input: booting with bitfield 0. -/
theorem C3_health_check_bit0_witness :
    ((system_health_check false true 0).1).testBit 0 = true
    ∧ (system_health_check false false 0).1 = 0 :=
  ⟨(C3_health_check_bit0 false true 0 (by decide)).2.1,
   (C3_health_check_bit0 false false 0 (by decide)).2.2.2.1⟩

/-- C6: after the boot portion of `main` completes, every byte of
`inbound_data` and every byte of `outbound_data` is zero. -/
theorem C6_buffers_zeroed (env : BootIn) :
    ((main_boot env).inbound_data.all fun b => b == 0) = true
    ∧ ((main_boot env).outbound_data.all fun b => b == 0) = true := by
  constructor
  · simp [main_boot, fillArray, List.all_eq_true]
  · simp [main_boot, outbound_data_init, List.all_eq_true]

/-- C7: a flight-configuration boot leaves the EEPROM byte at address 0
reading 0xFF, performs at most one EEPROM write, and when the byte already
reads SET the dirty-restart branch changes nothing and writes nothing. -/
theorem C7_crash_flag (env : BootIn) (hf : env.flight_mode = true) :
    (main_boot env).eeprom0 = 0xFF
    ∧ (main_boot env).eeprom_writes ≤ 1
    ∧ (env.eeprom0 = 0xFF →
        (main_boot env).eeprom_writes = 0 ∧ (main_boot env).eeprom0 = env.eeprom0) := by
  by_cases h : env.eeprom0 = 0xFF <;>
    simp [main_boot, crash_check, hf, h]

/-- Witness for C7 at a concrete input: a flight boot with the crash byte
already SET. -/
theorem C7_crash_flag_witness :
    bootF.flight_mode = true
    ∧ (main_boot bootF).eeprom0 = 0xFF
    ∧ (main_boot bootF).eeprom_writes = 0 :=
  ⟨rfl, (C7_crash_flag bootF rfl).1, ((C7_crash_flag bootF rfl).2.2 rfl).1⟩

/-- C10: a ground-configuration boot performs no EEPROM reads or writes and
leaves the crash byte exactly as found, and no `flight_loop` tick performs
any EEPROM access. -/
theorem C10_ground_no_storage (env : BootIn) (le : LoopEnv) (s : FCState)
    (hg : env.flight_mode = false) :
    (main_boot env).eeprom_reads = 0
    ∧ (main_boot env).eeprom_writes = 0
    ∧ (main_boot env).eeprom0 = env.eeprom0
    ∧ (flight_loop le s).2.eeprom_reads = 0
    ∧ (flight_loop le s).2.eeprom_writes = 0 := by
  obtain ⟨st, m, sen, t, pin⟩ := s
  cases st <;> simp [main_boot, crash_check, flight_loop, hg]

/-- Witness for C10 at a concrete input: a ground boot with crash byte
0x2A. -/
theorem C10_ground_no_storage_witness :
    boot0.flight_mode = false
    ∧ (main_boot boot0).eeprom_reads = 0
    ∧ (main_boot boot0).eeprom0 = boot0.eeprom0 :=
  ⟨rfl, (C10_ground_no_storage boot0 env0 initState rfl).1,
   (C10_ground_no_storage boot0 env0 initState rfl).2.2.1⟩

/-- C8 counterexample: the lifecycle controller's debug prints are not
conditionally compiled — `flight_loop` is the same code with or without
the flight flag — so a Startup tick emits a debug line in the flight
configuration too, contradicting the claim that with the flight flag
defined no tick emits a debug line. -/
theorem C8_counterexample :
    (flight_loop env0 initState).2.lines = ["System in Startup..."]
    ∧ (flight_loop env0 initState).2.lines ≠ ([] : List String) := by
  constructor
  · rfl
  · simp [flight_loop, initState]

/-- C8 amended: the flight flag suppresses only the boot health-check line
(emitted in ground configuration as the bitfield in binary between the
markers); every `flight_loop` tick emits its debug lines regardless of the
flag — the listed line per state, a Sampling tick additionally emitting the
seven sensor-reading lines, and the modem-ready line exactly when the modem
latches on that tick. -/
theorem C8_amended_debug_lines (fm probe : Bool) (bf : Nat)
    (env : LoopEnv) (s : FCState) :
    (system_health_check fm probe bf).2 =
      (if fm then [] else
        [("<$".append (String.mk
            (Nat.toDigits 2 (set_hardware_bf_bit 0 probe bf)))).append ">"])
    ∧ (s.fcpu_lifecycle_state = STARTUP →
        (flight_loop env s).2.lines = ["System in Startup..."])
    ∧ (s.fcpu_lifecycle_state = TX_RX →
        (flight_loop env s).2.lines = ["Transmission in progress..."])
    ∧ (s.fcpu_lifecycle_state = LOW_POWER_SLEEP →
        (flight_loop env s).2.lines = ["Transitioning to sleep mode..."])
    ∧ (s.fcpu_lifecycle_state = POLL_WAIT_IRIDIUM →
        (flight_loop env s).2.lines =
          (if s.sensor_system_ready then [] else
            ["Sampling...", env.bmp280_temp, env.mpl3115a2_temp,
             env.dht22_temp, env.ds18b20_temp, env.bme280_q,
             env.bmp280_q, env.mpl3115a2_q])
          ++ (if s.iridum_modem_ready = false ∧ env.check_iridium_ready = true
              then ["Iridium Modem Ready!..."] else [])) := by
  obtain ⟨st, m, sen, t, pin⟩ := s
  refine ⟨rfl, ?_, ?_, ?_, ?_⟩ <;>
    · intro hst
      simp only at hst
      subst hst
      cases m <;> cases sen <;> cases h : env.check_iridium_ready <;>
        simp [flight_loop, h]

/-- Witness for C8 (amended) at a concrete input: the flight-configuration
health check emits nothing, while a TransmitReceive tick emits its line. -/
theorem C8_amended_debug_lines_witness :
    (system_health_check true true 0).2 = []
    ∧ (flight_loop env0 { initState with
         fcpu_lifecycle_state := TX_RX }).2.lines =
        ["Transmission in progress..."] := by
  constructor
  · have h := (C8_amended_debug_lines true true 0 env0 initState).1
    simpa using h
  · exact (C8_amended_debug_lines true true 0 env0
      { initState with fcpu_lifecycle_state := TX_RX }).2.2.1 rfl
